import Mathlib

set_option linter.unusedVariables false

/- Shallow embedding of the kernel-object nucleus found under
   src/third_party/zircon_c: the physical-memory arena (vm/pmm_arena.c), the
   lazily committed VMO (vm/vmo_bootstrap.c), the page-fault resolver
   (vm/page_fault.c), and the handle table plus channel IPC (ipc/handle.c,
   ipc/message_packet.c, ipc/channel.c).

   Modelling conventions:
   - Pointers into the page_array of an arena are embedded as indices into a list
     of page descriptors; the intrusive free list threaded through the
     next fields of the descriptors becomes a list of such indices (head = most
     recently pushed, matching the LIFO push in the C code).
   - malloc is assumed to succeed: the NO_MEMORY paths attached to heap
     allocation are not modelled, all other error paths are.
   - NULL-pointer argument checks are modelled away by typing: a Lean value
     of a structure type stands for a valid, non-null pointer.
   - Machine integers are Nat. The uint32 arithmetic of the handle table, where
     the identity of computed handle IDs matters, carries an explicit
     mod 2^32; size_t counters that the C code only moves under guards that
     keep them in range (arena free_count) are plain Nat. -/

-- nthD l i d is list indexing with a default, the embedding of C array
-- indexing arr[i] (the default is only ever reached where the C code would
-- index out of bounds).
def nthD {α : Type} : List α → Nat → α → α
| [], _, d => d
| x :: _, 0, _ => x
| _ :: xs, i + 1, d => nthD xs i d

theorem nthD_nil {α : Type} (i : Nat) (d : α) : nthD [] i d = d := rfl

theorem nthD_cons_zero {α : Type} (x : α) (xs : List α) (d : α) :
    nthD (x :: xs) 0 d = x := rfl

theorem nthD_cons_succ {α : Type} (x : α) (xs : List α) (i : Nat) (d : α) :
    nthD (x :: xs) (i + 1) d = nthD xs i d := rfl

theorem nthD_of_length_le {α : Type} :
    ∀ (l : List α) (i : Nat) (d : α), l.length ≤ i → nthD l i d = d := by
  intro l
  induction l with
  | nil => intro i d _; rfl
  | cons x xs ih =>
    intro i d h
    cases i with
    | zero => simp at h
    | succ i => exact ih i d (by simpa using h)

theorem nthD_set_self {α : Type} :
    ∀ (l : List α) (i : Nat) (x d : α), i < l.length → nthD (l.set i x) i d = x := by
  intro l
  induction l with
  | nil => intro i x d h; simp at h
  | cons y ys ih =>
    intro i x d h
    cases i with
    | zero => rfl
    | succ i => exact ih i x d (by simpa using h)

theorem nthD_set_ne {α : Type} :
    ∀ (l : List α) (i j : Nat) (x d : α), i ≠ j → nthD (l.set i x) j d = nthD l j d := by
  intro l
  induction l with
  | nil => intro i j x d _; rfl
  | cons y ys ih =>
    intro i j x d hij
    cases i with
    | zero =>
      cases j with
      | zero => exact absurd rfl hij
      | succ j => rfl
    | succ i =>
      cases j with
      | zero => rfl
      | succ j => exact ih i j x d (fun h => hij (by rw [h]))

-- ===== vm_types.h =====

def PAGE_SIZE : Nat := 4096
def PAGE_SHIFT : Nat := 12

def VM_PAGE_STATE_FREE : Nat := 0
def VM_PAGE_STATE_ALLOCATED : Nat := 1
def VM_PAGE_STATE_WIRED : Nat := 2
def VM_PAGE_STATE_OBJECT : Nat := 3

def ZX_OK : Int := 0
def ZX_ERR_NO_MEMORY : Int := -1
def ZX_ERR_INVALID_ARGS : Int := -2
def ZX_ERR_NOT_FOUND : Int := -3

-- ===== vm_page.h =====

structure VmPage where
  paddr : Nat
  state : Nat
  ref_count : Nat
deriving DecidableEq

def vmPageDefault : VmPage := { paddr := 0, state := 0, ref_count := 0 }

-- ===== pmm_arena.h / pmm_arena.c =====

structure PmmArena where
  base : Nat
  size : Nat
  page_array : List VmPage
  free_list : List Nat
  free_count : Nat
deriving DecidableEq

-- The init loop fills page_array[i] with paddr = base + i * PAGE_SIZE,
-- state FREE, ref_count 0, for i = 0 .. page_count - 1.
def init_page_array (base : Nat) : Nat → List VmPage
| 0 => []
| n + 1 =>
  { paddr := base, state := VM_PAGE_STATE_FREE, ref_count := 0 }
    :: init_page_array (base + PAGE_SIZE) n

-- The init loop pushes descriptor i on the free-list head for i ascending,
-- so the final list is [page_count - 1, ..., 1, 0].
def init_free_list : Nat → List Nat
| 0 => []
| n + 1 => n :: init_free_list n

def pmm_arena_init (base size : Nat) : Int × Option PmmArena :=
  if size = 0 then (ZX_ERR_INVALID_ARGS, none)
  else
    let page_count := size / PAGE_SIZE
    (ZX_OK, some
      { base := base
        size := size
        page_array := init_page_array base page_count
        free_list := init_free_list page_count
        free_count := page_count })

def pmm_arena_alloc_page (arena : PmmArena) : Int × PmmArena × Option Nat :=
  match arena.free_list with
  | [] => (ZX_ERR_NO_MEMORY, arena, none)
  | p :: rest =>
    let pg := nthD arena.page_array p vmPageDefault
    (ZX_OK,
      { arena with
        page_array := arena.page_array.set p
          { pg with state := VM_PAGE_STATE_ALLOCATED, ref_count := 1 }
        free_list := rest
        -- size_t decrement; this path only runs with free_list nonempty,
        -- which keeps free_count positive in every reachable arena
        free_count := arena.free_count - 1 },
      some p)

def pmm_arena_free_page (arena : PmmArena) (p : Nat) : Int × PmmArena :=
  let pg := nthD arena.page_array p vmPageDefault
  if pg.state ≠ VM_PAGE_STATE_ALLOCATED then (ZX_ERR_INVALID_ARGS, arena)
  else if pg.ref_count = 0 then (ZX_ERR_INVALID_ARGS, arena)
  else
    let r := pg.ref_count - 1
    if 0 < r then
      (ZX_OK, { arena with page_array := arena.page_array.set p { pg with ref_count := r } })
    else
      (ZX_OK,
        { arena with
          page_array := arena.page_array.set p
            { pg with state := VM_PAGE_STATE_FREE, ref_count := r }
          free_list := p :: arena.free_list
          free_count := arena.free_count + 1 })

def pmm_arena_free_count (arena : PmmArena) : Nat := arena.free_count

-- ===== vmo_bootstrap.h / vmo_bootstrap.c =====

structure Vmo where
  size : Nat
  pages : List (Option Nat)
  page_count : Nat
deriving DecidableEq

-- The arena argument is only NULL-checked by vmo_bootstrap_init; the vmo
-- structure records no arena.
def vmo_bootstrap_init (arena : PmmArena) (size : Nat) : Int × Option Vmo :=
  if size = 0 then (ZX_ERR_INVALID_ARGS, none)
  else
    let page_count := (size + PAGE_SIZE - 1) / PAGE_SIZE
    (ZX_OK, some { size := size, pages := List.replicate page_count none, page_count := page_count })

def vmo_bootstrap_commit_page (vmo : Vmo) (arena : PmmArena) (page_index : Nat) :
    Int × Vmo × PmmArena :=
  if vmo.page_count ≤ page_index then (ZX_ERR_INVALID_ARGS, vmo, arena)
  else match nthD vmo.pages page_index none with
  | some _ => (ZX_OK, vmo, arena)
  | none =>
    match pmm_arena_alloc_page arena with
    | (status, arena2, some page) =>
      if status = ZX_OK then
        (ZX_OK, { vmo with pages := vmo.pages.set page_index (some page) }, arena2)
      else (status, vmo, arena2)
    -- pmm_arena_alloc_page yields a page exactly when it returns ZX_OK, so
    -- this arm is unreachable
    | (status, arena2, none) => (status, vmo, arena2)

-- The destroy loop walks pages[0 .. page_count), frees each committed slot
-- (ignoring the free status) and clears it; init keeps page_count equal to
-- the slot-list length, so the loop is a traversal of the slot list.
def destroy_pages : List (Option Nat) → PmmArena → PmmArena
| [], arena => arena
| none :: rest, arena => destroy_pages rest arena
| some p :: rest, arena => destroy_pages rest (pmm_arena_free_page arena p).2

def vmo_bootstrap_destroy (vmo : Vmo) (arena : PmmArena) : Vmo × PmmArena :=
  ({ size := 0, pages := [], page_count := 0 }, destroy_pages vmo.pages arena)

-- ===== page_fault.h / page_fault.c =====

def PAGE_FAULT_FLAG_READ : Nat := 1
def PAGE_FAULT_FLAG_WRITE : Nat := 2
def PAGE_FAULT_FLAG_EXEC : Nat := 4
def PAGE_FAULT_FLAG_USER : Nat := 8

-- A page_fault_handler_t is a pair of pointers to its vmo and arena set by
-- page_fault_handler_init; page_fault_handle takes the two directly.
def page_fault_handle (vmo : Vmo) (arena : PmmArena) (fault_addr flags : Nat) :
    Int × Vmo × PmmArena :=
  if flags &&& PAGE_FAULT_FLAG_WRITE ≠ 0 ∧ flags &&& PAGE_FAULT_FLAG_USER = 0 then
    (ZX_ERR_INVALID_ARGS, vmo, arena)
  else
    let page_index := fault_addr / PAGE_SIZE
    if vmo.page_count ≤ page_index then (ZX_ERR_NOT_FOUND, vmo, arena)
    else if nthD vmo.pages page_index none = none then
      vmo_bootstrap_commit_page vmo arena page_index
    else (ZX_OK, vmo, arena)

-- ===== handle.h / handle.c =====

def ZX_HANDLE_INVALID : Nat := 0

def ZX_RIGHT_NONE : Nat := 0
def ZX_RIGHT_READ : Nat := 1
def ZX_RIGHT_WRITE : Nat := 2
def ZX_RIGHT_DUPLICATE : Nat := 4
def ZX_RIGHT_TRANSFER : Nat := 8

-- handle.h carries its own numeric error codes, distinct from vm_types.h
def ZX_ERR_BAD_HANDLE : Int := -11
def ZX_ERR_INVALID_ARGS_IPC : Int := -10
def ZX_ERR_NO_MEMORY_IPC : Int := -4

-- 2^32, the modulus of the uint32 arithmetic in the handle table
def U32 : Nat := 4294967296

structure HandleEntry where
  object : Nat
  rights : Nat
  ref_count : Nat
deriving DecidableEq

-- buckets holds one chain per bucket (chain head = most recently inserted
-- entry, matching the head insertion in handle_alloc); entries do not
-- record their handle ID, exactly as in the C struct.
structure HandleTable where
  buckets : List (List HandleEntry)
  count : Nat
deriving DecidableEq

def handle_table_init (initial_buckets : Nat) : HandleTable :=
  { buckets := List.replicate (if 0 < initial_buckets then initial_buckets else 64) []
    count := 0 }

def handle_has_rights (handle_rights required_rights : Nat) : Bool :=
  handle_rights &&& required_rights == required_rights

def handle_alloc (table : HandleTable) (object : Nat) (rights : Nat) :
    Int × HandleTable × Nat :=
  let handle := (table.count + 1) % U32
  let bucket := handle % table.buckets.length
  let chain := nthD table.buckets bucket []
  (ZX_OK,
    { buckets := table.buckets.set bucket
        ({ object := object, rights := rights, ref_count := 1 } :: chain)
      count := (table.count + 1) % U32 },
    handle)

-- find_entry walks the chain of bucket handle % num_buckets comparing the
-- chain position against target_index = handle - 1 (a uint32; every call
-- site has already rejected handle 0), i.e. it returns the entry at chain
-- position handle - 1 when the chain is that long, and NULL otherwise.
def find_entry (table : HandleTable) (handle : Nat) : Option HandleEntry :=
  let bucket := handle % table.buckets.length
  let chain := nthD table.buckets bucket []
  chain.get? (handle - 1)

def handle_get (table : HandleTable) (handle : Nat) (required_rights : Nat) :
    Int × Option Nat :=
  if handle = ZX_HANDLE_INVALID then (ZX_ERR_INVALID_ARGS_IPC, none)
  else match find_entry table handle with
  | none => (ZX_ERR_BAD_HANDLE, none)
  | some entry =>
    if handle_has_rights entry.rights required_rights then (ZX_OK, some entry.object)
    else (ZX_ERR_INVALID_ARGS_IPC, none)

-- handle_close re-runs the find_entry walk keeping the unlink position.
def handle_close (table : HandleTable) (handle : Nat) : Int × HandleTable :=
  if handle = ZX_HANDLE_INVALID then (ZX_ERR_INVALID_ARGS_IPC, table)
  else
    let bucket := handle % table.buckets.length
    let chain := nthD table.buckets bucket []
    match chain.get? (handle - 1) with
    | none => (ZX_ERR_BAD_HANDLE, table)
    | some entry =>
      -- uint32 decrement of ref_count
      let r := (entry.ref_count + (U32 - 1)) % U32
      if r = 0 then
        (ZX_OK,
          { buckets := table.buckets.set bucket (chain.eraseIdx (handle - 1))
            count := (table.count + (U32 - 1)) % U32 })
      else
        (ZX_OK,
          { table with
            buckets := table.buckets.set bucket
              (chain.set (handle - 1) { entry with ref_count := r }) })

def handle_duplicate (table : HandleTable) (handle : Nat) (rights : Nat) :
    Int × HandleTable × Nat :=
  if handle = ZX_HANDLE_INVALID then (ZX_ERR_INVALID_ARGS_IPC, table, 0)
  else match find_entry table handle with
  | none => (ZX_ERR_BAD_HANDLE, table, 0)
  | some entry =>
    if handle_has_rights entry.rights ZX_RIGHT_DUPLICATE then
      handle_alloc table entry.object (rights &&& entry.rights)
    else (ZX_ERR_INVALID_ARGS_IPC, table, 0)

-- ===== message_packet.h / message_packet.c =====

-- message_packet_create copies the caller byte buffer and handle list
-- into owned storage; data_size and num_handles are the lengths of the
-- copied lists.
structure Packet where
  data : List Nat
  handles : List Nat
deriving DecidableEq

-- message_queue_t is a doubly linked FIFO with a count; embedded as a list
-- with head = oldest packet and count = length.
def message_queue_enqueue (queue : List Packet) (packet : Packet) : List Packet :=
  queue ++ [packet]

def message_queue_dequeue (queue : List Packet) : Option Packet × List Packet :=
  match queue with
  | [] => (none, queue)
  | packet :: rest => (some packet, rest)

def message_queue_is_empty (queue : List Packet) : Bool :=
  queue.length == 0

-- ===== channel.h / channel.c =====

-- Endpoints live in channel_t pairs on the heap; the model keeps every
-- endpoint ever created in one list and embeds endpoint pointers as
-- indices into it (peer = none embeds a NULL peer pointer).
structure Endpoint where
  message_queue : List Packet
  peer : Option Nat
  is_closed : Bool
  ref_count : Nat
deriving DecidableEq

-- stands for a dereference of a dangling endpoint pointer, which the C
-- code would never perform on the states the theorems visit
def epDefault : Endpoint := { message_queue := [], peer := none, is_closed := false, ref_count := 0 }

-- The process-wide state the channel calls act on: the lazily initialized
-- global handle table (64 buckets) plus the endpoint heap. Handle-table
-- entry objects are endpoint indices.
structure ChannelWorld where
  table : HandleTable
  endpoints : List Endpoint
deriving DecidableEq

def freshChannelWorld : ChannelWorld :=
  { table := handle_table_init 64, endpoints := [] }

def channel_create (w : ChannelWorld) : Int × ChannelWorld × Nat × Nat :=
  let n := w.endpoints.length
  let e0 : Endpoint := { message_queue := [], peer := some (n + 1), is_closed := false, ref_count := 1 }
  let e1 : Endpoint := { message_queue := [], peer := some n, is_closed := false, ref_count := 1 }
  let r0 := handle_alloc w.table n (ZX_RIGHT_READ ||| ZX_RIGHT_WRITE ||| ZX_RIGHT_TRANSFER)
  let r1 := handle_alloc r0.2.1 (n + 1) (ZX_RIGHT_READ ||| ZX_RIGHT_WRITE ||| ZX_RIGHT_TRANSFER)
  (ZX_OK, { table := r1.2.1, endpoints := w.endpoints ++ [e0, e1] }, r0.2.2, r1.2.2)

def channel_write (w : ChannelWorld) (handle : Nat) (data : List Nat) (handles : List Nat) :
    Int × ChannelWorld :=
  if handle = ZX_HANDLE_INVALID then (ZX_ERR_INVALID_ARGS_IPC, w)
  else match handle_get w.table handle ZX_RIGHT_WRITE with
  | (status, none) => (status, w)
  | (_, some obj) =>
    let endpoint := nthD w.endpoints obj epDefault
    if endpoint.is_closed then (ZX_ERR_BAD_HANDLE, w)
    else match endpoint.peer with
    | none => (ZX_ERR_BAD_HANDLE, w)
    | some pr =>
      let peer := nthD w.endpoints pr epDefault
      if peer.is_closed then (ZX_ERR_BAD_HANDLE, w)
      else
        let packet : Packet := { data := data, handles := handles }
        let peer2 := { peer with message_queue := message_queue_enqueue peer.message_queue packet }
        (ZX_OK, { w with endpoints := w.endpoints.set pr peer2 })

-- The final contents of the channel_read out-parameters: each caller-supplied
-- pointer is embedded as an Option holding the memory it points at (none =
-- NULL), and the result carries that memory after the call.
structure ChannelReadResult where
  status : Int
  world : ChannelWorld
  dataBuf : Option (List Nat)
  actualData : Option Nat
  handlesBuf : Option (List Nat)
  actualHandles : Option Nat
deriving DecidableEq

def channel_read (w : ChannelWorld) (handle : Nat)
    (data : Option (List Nat)) (data_size : Nat) (actual_data_size : Option Nat)
    (handles : Option (List Nat)) (num_handles : Nat) (actual_num_handles : Option Nat) :
    ChannelReadResult :=
  if handle = ZX_HANDLE_INVALID then
    ⟨ZX_ERR_INVALID_ARGS_IPC, w, data, actual_data_size, handles, actual_num_handles⟩
  else match handle_get w.table handle ZX_RIGHT_READ with
  | (status, none) => ⟨status, w, data, actual_data_size, handles, actual_num_handles⟩
  | (_, some obj) =>
    let endpoint := nthD w.endpoints obj epDefault
    if endpoint.is_closed then
      ⟨ZX_ERR_BAD_HANDLE, w, data, actual_data_size, handles, actual_num_handles⟩
    else if message_queue_is_empty endpoint.message_queue then
      ⟨ZX_ERR_BAD_HANDLE, w, data, actual_data_size, handles, actual_num_handles⟩
    else match message_queue_dequeue endpoint.message_queue with
    -- dequeue of a nonempty queue never yields NULL; arm kept for the
    -- null-packet check of the C code
    | (none, _) => ⟨ZX_ERR_BAD_HANDLE, w, data, actual_data_size, handles, actual_num_handles⟩
    | (some packet, rest) =>
      let w2 := { w with endpoints := w.endpoints.set obj { endpoint with message_queue := rest } }
      let actual2 := actual_data_size.map (fun _ => packet.data.length)
      -- memcpy of packet.data_size bytes into the caller buffer, performed
      -- only when the buffer is non-NULL and large enough
      let data2 := data.map (fun buf =>
        if packet.data.length ≤ data_size then packet.data ++ buf.drop packet.data.length
        else buf)
      let actualH2 := actual_num_handles.map (fun _ => packet.handles.length)
      let handles2 := handles.map (fun buf =>
        if packet.handles.length ≤ num_handles then packet.handles ++ buf.drop packet.handles.length
        else buf)
      ⟨ZX_OK, w2, data2, actual2, handles2, actualH2⟩

def channel_close (w : ChannelWorld) (handle : Nat) : Int × ChannelWorld :=
  if handle = ZX_HANDLE_INVALID then (ZX_ERR_INVALID_ARGS_IPC, w)
  else match handle_get w.table handle ZX_RIGHT_NONE with
  | (status, none) => (status, w)
  | (_, some obj) =>
    let endpoint := nthD w.endpoints obj epDefault
    -- mark closed and destroy the message queue (the own peer link of the
    -- endpoint is left as is, exactly as in the C code)
    let eps1 := w.endpoints.set obj { endpoint with is_closed := true, message_queue := [] }
    let eps2 := match endpoint.peer with
      | none => eps1
      | some pr => eps1.set pr { (nthD eps1 pr epDefault) with peer := none }
    let r := handle_close w.table handle
    (r.1, { table := r.2, endpoints := eps2 })

-- ===== Concrete traces used by the claim theorems =====

def demoTable0 : HandleTable := handle_table_init 64
def demoAlloc1 : Int × HandleTable × Nat := handle_alloc demoTable0 100 3
def demoAlloc2 : Int × HandleTable × Nat := handle_alloc demoAlloc1.2.1 200 3
def demoClose1 : Int × HandleTable := handle_close demoAlloc2.2.1 1
def demoAlloc3 : Int × HandleTable × Nat := handle_alloc demoClose1.2 300 3

/-- C1: refuted on the code. In a fresh 64-bucket table, two allocations
return IDs 1 and 2 and neither is closed, yet handle_get on ID 2 fails with
BAD_HANDLE: find_entry compares the chain position against handle - 1
instead of matching the ID, so the live ID 2 (alone in bucket 2, position 0)
is never found. The claim says BadHandle is returned only for IDs that are
not live. -/
theorem handle_get_live_id_code_bug :
    demoAlloc1.2.2 = 1 ∧ demoAlloc2.2.2 = 2 ∧
    demoAlloc1.1 = ZX_OK ∧ demoAlloc2.1 = ZX_OK ∧
    handle_get demoAlloc2.2.1 1 3 = (ZX_OK, some 100) ∧
    handle_get demoAlloc2.2.1 2 3 = (ZX_ERR_BAD_HANDLE, none) ∧
    ZX_ERR_BAD_HANDLE ≠ ZX_OK := by decide

/-- C2: refuted on the code. handle_alloc assigns count + 1 and handle_close
decrements count, so after alloc → 1, alloc → 2, close(1), the next alloc
returns 2 again even though ID 2 is still live. The claim says a fresh ID
never equals any live ID. -/
theorem handle_alloc_reuses_live_id_code_bug :
    demoAlloc1.2.2 = 1 ∧ demoAlloc2.2.2 = 2 ∧
    demoClose1.1 = ZX_OK ∧ demoAlloc3.1 = ZX_OK ∧
    demoAlloc3.2.2 = 2 := by decide

def c3Create : Int × ChannelWorld × Nat × Nat := channel_create freshChannelWorld
def c3Write : Int × ChannelWorld :=
  channel_write c3Create.2.1 1 [104, 101, 108, 108, 111] []
def c3Read : ChannelReadResult :=
  channel_read c3Write.2 2 (some (List.replicate 16 0)) 16 (some 0) (some []) 0 (some 0)

/-- C3: refuted on the code. channel_create on a fresh process state yields
handles (1, 2); write(1, "hello") succeeds and the packet sits in endpoint
the queue of endpoint 1, but read(2) with ample buffers fails with BAD_HANDLE (the broken
find_entry cannot resolve handle 2), instead of returning the 5 written
bytes: neither actual_data_size nor the caller buffer is written. -/
theorem channel_roundtrip_read_code_bug :
    c3Create.1 = ZX_OK ∧ c3Create.2.2.1 = 1 ∧ c3Create.2.2.2 = 2 ∧
    c3Write.1 = ZX_OK ∧
    (nthD c3Write.2.endpoints 1 epDefault).message_queue =
      [{ data := [104, 101, 108, 108, 111], handles := [] }] ∧
    c3Read.status = ZX_ERR_BAD_HANDLE ∧ c3Read.status ≠ ZX_OK ∧
    c3Read.actualData = some 0 ∧
    c3Read.dataBuf = some (List.replicate 16 0) := by decide

def c5Write : Int × ChannelWorld := channel_write c3Create.2.1 1 [120] []
def c5Close : Int × ChannelWorld := channel_close c5Write.2 1
def c5Read : ChannelReadResult :=
  channel_read c5Close.2 2 (some (List.replicate 4 0)) 4 (some 0) (some []) 0 (some 0)
def c5PeerWrite : Int × ChannelWorld := channel_write c5Close.2 2 [121] []

/-- C5: refuted on the code. With handles (1, 2), after write(1, "x") and a
successful close(1), endpoint 1 is open and still holds the queued packet,
and write(2) does fail with BAD_HANDLE as the claim says — but read(2) also
fails with BAD_HANDLE despite the non-empty queue, because find_entry
cannot resolve handle 2; the claim says such reads continue to succeed. -/
theorem peer_close_read_code_bug :
    c5Write.1 = ZX_OK ∧ c5Close.1 = ZX_OK ∧
    (nthD c5Close.2.endpoints 1 epDefault).message_queue =
      [{ data := [120], handles := [] }] ∧
    (nthD c5Close.2.endpoints 1 epDefault).is_closed = false ∧
    c5PeerWrite.1 = ZX_ERR_BAD_HANDLE ∧
    c5Read.status = ZX_ERR_BAD_HANDLE ∧ c5Read.status ≠ ZX_OK := by decide

-- ===== C4: out-of-range page faults =====

def c4Arena : PmmArena :=
  ((pmm_arena_init 16777216 409600).2).getD
    { base := 0, size := 0, page_array := [], free_list := [], free_count := 0 }
def c4Vmo : Vmo :=
  ((vmo_bootstrap_init c4Arena 40960).2).getD { size := 0, pages := [], page_count := 0 }

/-- C4 counterexample: the claim quantifies over every flags value, but
page_fault_handle checks the write-without-user flag combination before the
bounds check; a fault at 20 * 4096 on a 10-page VMO with flags = Write
returns INVALID_ARGS, not NOT_FOUND. -/
theorem page_fault_oob_flags_counterexample :
    c4Vmo.page_count = 10 ∧
    (page_fault_handle c4Vmo c4Arena 81920 PAGE_FAULT_FLAG_WRITE).1 = ZX_ERR_INVALID_ARGS ∧
    (page_fault_handle c4Vmo c4Arena 81920 PAGE_FAULT_FLAG_WRITE).1 ≠ ZX_ERR_NOT_FOUND := by
  decide

/-- C4 (amended): for every initialized handler and every flags value that
passes the write-without-user check, a fault whose page index is at or past
the page_count of the VMO fails with NOT_FOUND and leaves the vmo and the arena
(hence the free count of the arena) unchanged. -/
theorem page_fault_oob_not_found (vmo : Vmo) (arena : PmmArena) (fault_addr flags : Nat)
    (hflags : ¬(flags &&& PAGE_FAULT_FLAG_WRITE ≠ 0 ∧ flags &&& PAGE_FAULT_FLAG_USER = 0))
    (hoob : vmo.page_count ≤ fault_addr / PAGE_SIZE) :
    page_fault_handle vmo arena fault_addr flags = (ZX_ERR_NOT_FOUND, vmo, arena) ∧
    (page_fault_handle vmo arena fault_addr flags).2.2.free_count = arena.free_count := by
  have h : page_fault_handle vmo arena fault_addr flags = (ZX_ERR_NOT_FOUND, vmo, arena) := by
    unfold page_fault_handle
    rw [if_neg hflags]
    simp only [if_pos hoob]
  exact ⟨h, by rw [h]⟩

/-- C4 witness: a fault at page_count * PAGE_SIZE on the 10-page VMO with
flags Read|User returns NOT_FOUND and leaves the arena untouched. -/
theorem page_fault_oob_not_found_witness :
    page_fault_handle c4Vmo c4Arena 40960 9 = (ZX_ERR_NOT_FOUND, c4Vmo, c4Arena) ∧
    (page_fault_handle c4Vmo c4Arena 40960 9).2.2.free_count = c4Arena.free_count :=
  page_fault_oob_not_found c4Vmo c4Arena 40960 9 (by decide) (by decide)

-- ===== C6: commit_page idempotence =====

/-- C6: if slot page_index of the VMO is already committed (and in range),
commit_page returns ZX_OK and leaves the VMO and the arena completely
unchanged — the arena allocator is not consulted, so a second commit of the
same index consumes no further arena page. -/
theorem commit_page_idempotent (vmo : Vmo) (arena : PmmArena) (page_index p : Nat)
    (hlt : page_index < vmo.page_count)
    (hslot : nthD vmo.pages page_index none = some p) :
    vmo_bootstrap_commit_page vmo arena page_index = (ZX_OK, vmo, arena) := by
  unfold vmo_bootstrap_commit_page
  rw [if_neg (Nat.not_le.mpr hlt), hslot]

/-- C6 witness: recommitting the already committed slot 0 of a one-page VMO
returns ZX_OK and changes nothing. -/
theorem commit_page_idempotent_witness :
    vmo_bootstrap_commit_page { size := 4096, pages := [some 0], page_count := 1 } c4Arena 0 =
      (ZX_OK, { size := 4096, pages := [some 0], page_count := 1 }, c4Arena) :=
  commit_page_idempotent { size := 4096, pages := [some 0], page_count := 1 } c4Arena 0 0
    (by decide) (by decide)

-- ===== C9: the VMO records no arena =====

/-- C9: vmo_bootstrap_init uses its arena argument only for the (modelled
away) null check: initializing against any two arenas returns the same
status and the same VMO state, and the later commit_page and destroy calls
act on exactly the arena passed to them, independently of the arena used at
init. -/
theorem vmo_init_arena_independent (A B C : PmmArena) (size : Nat)
    (st1 st2 : Int) (vA vB : Vmo) (i : Nat)
    (hA : vmo_bootstrap_init A size = (st1, some vA))
    (hB : vmo_bootstrap_init B size = (st2, some vB)) :
    st1 = st2 ∧ vA = vB ∧
    vmo_bootstrap_init A size = vmo_bootstrap_init B size ∧
    vmo_bootstrap_commit_page vA C i = vmo_bootstrap_commit_page vB C i ∧
    vmo_bootstrap_destroy vA C = vmo_bootstrap_destroy vB C := by
  have hAB : vmo_bootstrap_init A size = vmo_bootstrap_init B size := rfl
  rw [hA, hB] at hAB
  injection hAB with h1 h2
  injection h2 with h2
  subst h1
  subst h2
  exact ⟨rfl, rfl, rfl, rfl, rfl⟩

def c9ArenaB : PmmArena :=
  { base := 7, size := 8192, page_array := [], free_list := [], free_count := 0 }
def c9Vmo : Vmo := { size := 4096, pages := [none], page_count := 1 }

/-- C9 witness: initializing a one-page VMO against the 100-page arena and
against an unrelated arena gives identical results, and commit/destroy on
the result agree whichever arena was used at init. -/
theorem vmo_init_arena_independent_witness :
    (ZX_OK : Int) = ZX_OK ∧ c9Vmo = c9Vmo ∧
    vmo_bootstrap_init c4Arena 4096 = vmo_bootstrap_init c9ArenaB 4096 ∧
    vmo_bootstrap_commit_page c9Vmo c9ArenaB 0 = vmo_bootstrap_commit_page c9Vmo c9ArenaB 0 ∧
    vmo_bootstrap_destroy c9Vmo c9ArenaB = vmo_bootstrap_destroy c9Vmo c9ArenaB :=
  vmo_init_arena_independent c4Arena c9ArenaB c9ArenaB 4096 ZX_OK ZX_OK c9Vmo c9Vmo 0
    (by decide) (by decide)

-- ===== C8: the arena free-count invariant =====

-- number of page descriptors in the arena whose state is Free
def free_state_count (arena : PmmArena) : Nat :=
  (arena.page_array.filter (fun pg => pg.state == VM_PAGE_STATE_FREE)).length

-- The consistency of an arena: the free list holds distinct in-range
-- indices of Free descriptors, and free_count equals both the free-list
-- length and the number of Free descriptors.
abbrev ArenaInv (arena : PmmArena) : Prop :=
  arena.free_list.Nodup ∧
  (∀ p ∈ arena.free_list, p < arena.page_array.length ∧
    (nthD arena.page_array p vmPageDefault).state = VM_PAGE_STATE_FREE) ∧
  arena.free_count = arena.free_list.length ∧
  arena.free_count = free_state_count arena

theorem length_filter_set {α : Type} (f : α → Bool) :
    ∀ (l : List α) (i : Nat) (x d : α), i < l.length →
      ((l.set i x).filter f).length + (if f (nthD l i d) then 1 else 0) =
        (l.filter f).length + (if f x then 1 else 0) := by
  intro l
  induction l with
  | nil => intro i x d h; simp at h
  | cons y ys ih =>
    intro i x d h
    cases i with
    | zero =>
      simp only [List.set, nthD_cons_zero, List.filter_cons]
      by_cases hx : f x <;> by_cases hy : f y <;> simp [hx, hy]
    | succ i =>
      have hi : i < ys.length := by simpa using h
      have hrec := ih i x d hi
      simp only [List.set, nthD_cons_succ, List.filter_cons]
      by_cases hy : f y <;> simp [hy] <;> omega

theorem init_page_array_length (base n : Nat) : (init_page_array base n).length = n := by
  induction n generalizing base with
  | zero => rfl
  | succ n ih => simp [init_page_array, ih]

theorem nthD_init_page_array_state (n : Nat) :
    ∀ (base i : Nat), i < n →
      (nthD (init_page_array base n) i vmPageDefault).state = VM_PAGE_STATE_FREE := by
  induction n with
  | zero => intro base i h; omega
  | succ n ih =>
    intro base i h
    cases i with
    | zero => rfl
    | succ i => exact ih (base + PAGE_SIZE) i (by omega)

theorem filter_init_page_array_length (base n : Nat) :
    ((init_page_array base n).filter (fun pg => pg.state == VM_PAGE_STATE_FREE)).length = n := by
  induction n generalizing base with
  | zero => rfl
  | succ n ih => simp [init_page_array, List.filter_cons, ih (base + PAGE_SIZE)]

theorem mem_init_free_list (n p : Nat) : p ∈ init_free_list n ↔ p < n := by
  induction n with
  | zero => simp [init_free_list]
  | succ n ih => simp [init_free_list, ih]; omega

theorem init_free_list_nodup (n : Nat) : (init_free_list n).Nodup := by
  induction n with
  | zero => exact List.nodup_nil
  | succ n ih =>
    refine List.nodup_cons.mpr ⟨?_, ih⟩
    rw [mem_init_free_list]
    omega

theorem init_free_list_length (n : Nat) : (init_free_list n).length = n := by
  induction n with
  | zero => rfl
  | succ n ih => simp [init_free_list, ih]

theorem arenaInv_init (base size : Nat) (st : Int) (arena : PmmArena)
    (h : pmm_arena_init base size = (st, some arena)) : ArenaInv arena := by
  unfold pmm_arena_init at h
  by_cases hs : size = 0
  · rw [if_pos hs] at h
    exact absurd (congrArg Prod.snd h) (by simp)
  · rw [if_neg hs] at h
    injection h with h1 h2
    injection h2 with h2
    subst h2
    refine ⟨init_free_list_nodup _, ?_, ?_, ?_⟩
    · intro p hp
      rw [mem_init_free_list] at hp
      constructor
      · simpa [init_page_array_length] using hp
      · exact nthD_init_page_array_state _ base p hp
    · simp [init_free_list_length]
    · simp [free_state_count, filter_init_page_array_length]

theorem arenaInv_alloc (arena : PmmArena) (h : ArenaInv arena) :
    ArenaInv (pmm_arena_alloc_page arena).2.1 := by
  obtain ⟨hnd, hmem, hce, hcs⟩ := h
  cases hfl : arena.free_list with
  | nil =>
    have hres : (pmm_arena_alloc_page arena).2.1 = arena := by
      unfold pmm_arena_alloc_page
      rw [hfl]
    rw [hres]
    exact ⟨hnd, hmem, hce, hcs⟩
  | cons p rest =>
    have hp := hmem p (by rw [hfl]; exact List.mem_cons_self p rest)
    have hnd2 : (p :: rest).Nodup := hfl ▸ hnd
    have hpnotrest : p ∉ rest := (List.nodup_cons.mp hnd2).1
    have hce2 : arena.free_count = rest.length + 1 := by
      rw [hce, hfl]
      rfl
    have hres : (pmm_arena_alloc_page arena).2.1 =
        { arena with
          page_array := arena.page_array.set p
            { (nthD arena.page_array p vmPageDefault) with
                state := VM_PAGE_STATE_ALLOCATED, ref_count := 1 }
          free_list := rest
          free_count := arena.free_count - 1 } := by
      unfold pmm_arena_alloc_page
      rw [hfl]
    rw [hres]
    refine ⟨(List.nodup_cons.mp hnd2).2, ?_, ?_, ?_⟩
    · intro q hq
      have hq2 := hmem q (by rw [hfl]; exact List.mem_cons_of_mem p hq)
      have hqp : p ≠ q := fun he => hpnotrest (he ▸ hq)
      dsimp only
      rw [List.length_set, nthD_set_ne _ p q _ _ hqp]
      exact hq2
    · show arena.free_count - 1 = rest.length
      omega
    · have hset := length_filter_set (fun pg => pg.state == VM_PAGE_STATE_FREE)
        arena.page_array p
        { (nthD arena.page_array p vmPageDefault) with
            state := VM_PAGE_STATE_ALLOCATED, ref_count := 1 }
        vmPageDefault hp.1
      simp only [free_state_count] at hcs ⊢
      simp [hp.2, VM_PAGE_STATE_FREE, VM_PAGE_STATE_ALLOCATED] at hset hcs ⊢
      omega

theorem arenaInv_free (arena : PmmArena) (p : Nat) (h : ArenaInv arena) :
    ArenaInv (pmm_arena_free_page arena p).2 := by
  obtain ⟨hnd, hmem, hce, hcs⟩ := h
  by_cases h1 : (nthD arena.page_array p vmPageDefault).state = VM_PAGE_STATE_ALLOCATED
  · have hplen : p < arena.page_array.length := by
      by_contra hnl
      rw [nthD_of_length_le _ p _ (by omega)] at h1
      simp [vmPageDefault, VM_PAGE_STATE_ALLOCATED] at h1
    have hpfl : p ∉ arena.free_list := by
      intro hin
      have hx := (hmem p hin).2
      rw [h1] at hx
      simp [VM_PAGE_STATE_FREE, VM_PAGE_STATE_ALLOCATED] at hx
    by_cases h2 : (nthD arena.page_array p vmPageDefault).ref_count = 0
    · have hres : (pmm_arena_free_page arena p).2 = arena := by
        unfold pmm_arena_free_page
        rw [if_neg (not_not_intro h1), if_pos h2]
      rw [hres]
      exact ⟨hnd, hmem, hce, hcs⟩
    · by_cases h3 : 0 < (nthD arena.page_array p vmPageDefault).ref_count - 1
      · have hres : (pmm_arena_free_page arena p).2 =
            { arena with
              page_array := arena.page_array.set p
                { (nthD arena.page_array p vmPageDefault) with
                    ref_count := (nthD arena.page_array p vmPageDefault).ref_count - 1 } } := by
          unfold pmm_arena_free_page
          rw [if_neg (not_not_intro h1), if_neg h2, if_pos h3]
        rw [hres]
        refine ⟨hnd, ?_, hce, ?_⟩
        · intro q hq
          have hq2 := hmem q hq
          have hqp : p ≠ q := fun he => hpfl (he ▸ hq)
          dsimp only
          rw [List.length_set, nthD_set_ne _ p q _ _ hqp]
          exact hq2
        · have hset := length_filter_set (fun pg => pg.state == VM_PAGE_STATE_FREE)
            arena.page_array p
            { (nthD arena.page_array p vmPageDefault) with
                ref_count := (nthD arena.page_array p vmPageDefault).ref_count - 1 }
            vmPageDefault hplen
          simp only [free_state_count] at hcs ⊢
          simp [h1, VM_PAGE_STATE_FREE, VM_PAGE_STATE_ALLOCATED] at hset hcs ⊢
          omega
      · have hres : (pmm_arena_free_page arena p).2 =
            { arena with
              page_array := arena.page_array.set p
                { (nthD arena.page_array p vmPageDefault) with
                    state := VM_PAGE_STATE_FREE,
                    ref_count := (nthD arena.page_array p vmPageDefault).ref_count - 1 }
              free_list := p :: arena.free_list
              free_count := arena.free_count + 1 } := by
          unfold pmm_arena_free_page
          rw [if_neg (not_not_intro h1), if_neg h2, if_neg h3]
        rw [hres]
        refine ⟨List.nodup_cons.mpr ⟨hpfl, hnd⟩, ?_, ?_, ?_⟩
        · intro q hq
          dsimp only
          rcases List.mem_cons.mp hq with hqp | hq2
          · subst hqp
            rw [List.length_set, nthD_set_self _ q _ _ hplen]
            exact ⟨hplen, rfl⟩
          · have hq3 := hmem q hq2
            have hqp : p ≠ q := fun he => hpfl (he ▸ hq2)
            rw [List.length_set, nthD_set_ne _ p q _ _ hqp]
            exact hq3
        · dsimp only
          rw [hce]
          rfl
        · have hset := length_filter_set (fun pg => pg.state == VM_PAGE_STATE_FREE)
            arena.page_array p
            { (nthD arena.page_array p vmPageDefault) with
                state := VM_PAGE_STATE_FREE,
                ref_count := (nthD arena.page_array p vmPageDefault).ref_count - 1 }
            vmPageDefault hplen
          simp only [free_state_count] at hcs ⊢
          simp [h1, VM_PAGE_STATE_FREE, VM_PAGE_STATE_ALLOCATED] at hset hcs ⊢
          omega
  · have hres : (pmm_arena_free_page arena p).2 = arena := by
      unfold pmm_arena_free_page
      rw [if_pos h1]
    rw [hres]
    exact ⟨hnd, hmem, hce, hcs⟩

-- The arenas reachable from a successful pmm_arena_init through any
-- sequence of alloc_page and free_page calls, successful or failing
-- (free_page on a descriptor outside the page_array of the arena is the one
-- undefined behaviour of the C interface and is excluded).
inductive PmmReach : PmmArena → Prop
| init (base size : Nat) (st : Int) (arena : PmmArena)
    (h : pmm_arena_init base size = (st, some arena)) : PmmReach arena
| alloc (arena : PmmArena) (h : PmmReach arena) :
    PmmReach (pmm_arena_alloc_page arena).2.1
| free (arena : PmmArena) (p : Nat) (hp : p < arena.page_array.length)
    (h : PmmReach arena) : PmmReach (pmm_arena_free_page arena p).2

theorem pmmReach_arenaInv (arena : PmmArena) (h : PmmReach arena) : ArenaInv arena := by
  induction h with
  | init base size st arena h => exact arenaInv_init base size st arena h
  | alloc arena h ih => exact arenaInv_alloc arena ih
  | free arena p hp h ih => exact arenaInv_free arena p ih

/-- C8: for every arena reachable from a successful pmm_arena_init by any
sequence of alloc_page and free_page calls (successful or failing), the
free_count equals the number of page descriptors whose state is Free, and
equals the length of the free list. -/
theorem pmm_free_count_invariant (arena : PmmArena) (h : PmmReach arena) :
    pmm_arena_free_count arena = free_state_count arena ∧
    pmm_arena_free_count arena = arena.free_list.length := by
  obtain ⟨hnd, hmem, hce, hcs⟩ := pmmReach_arenaInv arena h
  exact ⟨hcs, hce⟩

-- the arena produced by pmm_arena_init 0 8192
def c8Arena0 : PmmArena :=
  { base := 0, size := 8192
    page_array := [{ paddr := 0, state := 0, ref_count := 0 },
                   { paddr := 4096, state := 0, ref_count := 0 }]
    free_list := [1, 0]
    free_count := 2 }

/-- C8 witness: the invariant applied to the two-page arena after one
allocation. -/
theorem pmm_free_count_invariant_witness :
    pmm_arena_free_count (pmm_arena_alloc_page c8Arena0).2.1 =
      free_state_count (pmm_arena_alloc_page c8Arena0).2.1 ∧
    pmm_arena_free_count (pmm_arena_alloc_page c8Arena0).2.1 =
      (pmm_arena_alloc_page c8Arena0).2.1.free_list.length :=
  pmm_free_count_invariant _
    (PmmReach.alloc c8Arena0 (PmmReach.init 0 8192 ZX_OK c8Arena0 (by decide)))

-- ===== C7: destroy restores the arena free count =====

-- the list of arena page indices currently committed in the VMO slots
def committedIdx (vmo : Vmo) : List Nat := vmo.pages.filterMap id

theorem filterMap_id_cons_none (xs : List (Option Nat)) :
    (none :: xs).filterMap id = xs.filterMap id := rfl

theorem filterMap_id_cons_some (p : Nat) (xs : List (Option Nat)) :
    (some p :: xs).filterMap id = p :: xs.filterMap id := rfl

theorem filterMap_replicate_none (n : Nat) :
    (List.replicate n (none : Option Nat)).filterMap id = [] := by
  induction n with
  | zero => rfl
  | succ n ih => simp [List.replicate_succ, filterMap_id_cons_none, ih]

theorem filterMap_set_some_perm :
    ∀ (l : List (Option Nat)) (i j : Nat), i < l.length → nthD l i none = none →
      List.Perm ((l.set i (some j)).filterMap id) (j :: l.filterMap id) := by
  intro l
  induction l with
  | nil => intro i j h _; simp at h
  | cons x xs ih =>
    intro i j h hn
    cases i with
    | zero =>
      have hx : x = none := hn
      subst hx
      simp [List.set, filterMap_id_cons_some, filterMap_id_cons_none]
    | succ i =>
      have hi : i < xs.length := by simpa using h
      have hp := ih i j hi hn
      cases x with
      | none => simpa [List.set, filterMap_id_cons_none] using hp
      | some y =>
        simp only [List.set, filterMap_id_cons_some]
        exact List.Perm.trans (hp.cons y) (List.Perm.swap j y (xs.filterMap id))

-- The joint invariant carried along a sequence of successful commit_page
-- calls against a VMO and the arena backing it: the arena stays consistent,
-- committed slots name distinct allocated pages with ref_count 1, and the
-- starting free count fc0 of the arena splits into the current free count plus
-- the number of committed slots.
def VmoInv (fc0 : Nat) (vmo : Vmo) (arena : PmmArena) : Prop :=
  ArenaInv arena ∧
  vmo.page_count = vmo.pages.length ∧
  (∀ p ∈ committedIdx vmo, p < arena.page_array.length ∧
    (nthD arena.page_array p vmPageDefault).state = VM_PAGE_STATE_ALLOCATED ∧
    (nthD arena.page_array p vmPageDefault).ref_count = 1) ∧
  (committedIdx vmo).Nodup ∧
  fc0 = arena.free_count + (committedIdx vmo).length

-- States reachable from (vmo0, arena0) by successful commit_page calls,
-- with no other activity on the arena.
inductive CommitReach (arena0 : PmmArena) (vmo0 : Vmo) : Vmo → PmmArena → Prop
| base : CommitReach arena0 vmo0 vmo0 arena0
| step (vmo : Vmo) (arena : PmmArena) (i : Nat) (vmo2 : Vmo) (arena2 : PmmArena)
    (hr : CommitReach arena0 vmo0 vmo arena)
    (hc : vmo_bootstrap_commit_page vmo arena i = (ZX_OK, vmo2, arena2)) :
    CommitReach arena0 vmo0 vmo2 arena2

theorem vmoInv_commit (fc0 : Nat) (vmo : Vmo) (arena : PmmArena) (i : Nat)
    (vmo2 : Vmo) (arena2 : PmmArena)
    (hinv : VmoInv fc0 vmo arena)
    (hc : vmo_bootstrap_commit_page vmo arena i = (ZX_OK, vmo2, arena2)) :
    VmoInv fc0 vmo2 arena2 := by
  obtain ⟨hainv, hpc, hcom, hnd, hacc⟩ := hinv
  unfold vmo_bootstrap_commit_page at hc
  split at hc
  · injection hc with h1 h2
    exact absurd h1 (by decide)
  · next hle =>
    split at hc
    · next q hslot =>
      injection hc with h1 h2
      injection h2 with h2 h3
      subst h2
      subst h3
      exact ⟨hainv, hpc, hcom, hnd, hacc⟩
    · next hslot =>
      split at hc
      · next status a2 page heq =>
        split at hc
        · next hst =>
          injection hc with h1 h2
          injection h2 with h2 h3
          subst h2
          subst h3
          cases hfl : arena.free_list with
          | nil =>
            rw [show pmm_arena_alloc_page arena = (ZX_ERR_NO_MEMORY, arena, none) from by
              unfold pmm_arena_alloc_page; rw [hfl]] at heq
            injection heq with g1 g2
            injection g2 with g2 g3
            exact absurd g3 (by simp)
          | cons j rest =>
            rw [show pmm_arena_alloc_page arena =
                (ZX_OK,
                  { arena with
                    page_array := arena.page_array.set j
                      { (nthD arena.page_array j vmPageDefault) with
                          state := VM_PAGE_STATE_ALLOCATED, ref_count := 1 }
                    free_list := rest
                    free_count := arena.free_count - 1 },
                  some j) from by
              unfold pmm_arena_alloc_page; rw [hfl]] at heq
            injection heq with g1 g2
            injection g2 with g2 g3
            injection g3 with g3
            subst g2
            subst g3
            obtain ⟨andp, amem, ace, acs⟩ := hainv
            have hilt : i < vmo.pages.length := by omega
            have hperm := filterMap_set_some_perm vmo.pages i j hilt hslot
            have hj := amem j (by rw [hfl]; exact List.mem_cons_self j rest)
            have hjnotcom : j ∉ committedIdx vmo := by
              intro hin
              have hx := (hcom j hin).2.1
              rw [hj.2] at hx
              simp [VM_PAGE_STATE_FREE, VM_PAGE_STATE_ALLOCATED] at hx
            have hainv2 := arenaInv_alloc arena ⟨andp, amem, ace, acs⟩
            rw [show pmm_arena_alloc_page arena =
                (ZX_OK,
                  { arena with
                    page_array := arena.page_array.set j
                      { (nthD arena.page_array j vmPageDefault) with
                          state := VM_PAGE_STATE_ALLOCATED, ref_count := 1 }
                    free_list := rest
                    free_count := arena.free_count - 1 },
                  some j) from by
              unfold pmm_arena_alloc_page; rw [hfl]] at hainv2
            have hfc1 : 1 ≤ arena.free_count := by
              rw [ace, hfl]
              simp
            refine ⟨hainv2, ?_, ?_, ?_, ?_⟩
            · show vmo.page_count = (vmo.pages.set i (some j)).length
              rw [List.length_set]
              exact hpc
            · intro p hp
              have hp2 : p = j ∨ p ∈ committedIdx vmo :=
                List.mem_cons.mp (hperm.mem_iff.mp hp)
              dsimp only
              rcases hp2 with hpj | hpold
              · subst hpj
                rw [List.length_set, nthD_set_self _ p _ _ hj.1]
                exact ⟨hj.1, rfl, rfl⟩
              · have hold := hcom p hpold
                have hpj : j ≠ p := by
                  intro he
                  subst he
                  rw [hj.2] at hold
                  simp [VM_PAGE_STATE_FREE, VM_PAGE_STATE_ALLOCATED] at hold
                rw [List.length_set, nthD_set_ne _ j p _ _ hpj]
                exact hold
            · exact hperm.nodup_iff.mpr (List.nodup_cons.mpr ⟨hjnotcom, hnd⟩)
            · have hlen := hperm.length_eq
              show fc0 = arena.free_count - 1 +
                (committedIdx { vmo with pages := vmo.pages.set i (some j) }).length
              have hlen2 : (committedIdx { vmo with pages := vmo.pages.set i (some j) }).length =
                  (committedIdx vmo).length + 1 := by
                simpa [committedIdx] using hlen
              omega
        · next hst =>
          injection hc with h1 h2
          exact absurd h1 hst
      · next status a2 heq =>
        injection hc with h1 h2
        cases hfl : arena.free_list with
        | nil =>
          rw [show pmm_arena_alloc_page arena = (ZX_ERR_NO_MEMORY, arena, none) from by
            unfold pmm_arena_alloc_page; rw [hfl]] at heq
          injection heq with g1 g2
          rw [← g1] at h1
          exact absurd h1 (by decide)
        | cons j rest =>
          rw [show pmm_arena_alloc_page arena =
              (ZX_OK,
                { arena with
                  page_array := arena.page_array.set j
                    { (nthD arena.page_array j vmPageDefault) with
                        state := VM_PAGE_STATE_ALLOCATED, ref_count := 1 }
                  free_list := rest
                  free_count := arena.free_count - 1 },
                some j) from by
            unfold pmm_arena_alloc_page; rw [hfl]] at heq
          injection heq with g1 g2
          injection g2 with g2 g3
          exact absurd g3 (by simp)

theorem vmoInv_base (arena0 : PmmArena) (size : Nat) (st : Int) (vmo0 : Vmo)
    (ha : ArenaInv arena0) (hinit : vmo_bootstrap_init arena0 size = (st, some vmo0)) :
    VmoInv arena0.free_count vmo0 arena0 := by
  unfold vmo_bootstrap_init at hinit
  by_cases hs : size = 0
  · rw [if_pos hs] at hinit
    exact absurd (congrArg Prod.snd hinit) (by simp)
  · rw [if_neg hs] at hinit
    injection hinit with h1 h2
    injection h2 with h2
    subst h2
    refine ⟨ha, by simp, ?_, ?_, ?_⟩
    · intro p hp
      simp [committedIdx, filterMap_replicate_none] at hp
    · simp [committedIdx, filterMap_replicate_none]
    · simp [committedIdx, filterMap_replicate_none]

theorem commitReach_vmoInv (arena0 : PmmArena) (vmo0 vmo : Vmo) (arena : PmmArena)
    (h : CommitReach arena0 vmo0 vmo arena) (hbase : VmoInv arena0.free_count vmo0 arena0) :
    VmoInv arena0.free_count vmo arena := by
  induction h with
  | base => exact hbase
  | step v a i v2 a2 hr hc ih => exact vmoInv_commit _ v a i v2 a2 ih hc

theorem destroy_pages_free_count :
    ∀ (pages : List (Option Nat)) (arena : PmmArena),
      (∀ p ∈ pages.filterMap id,
        (nthD arena.page_array p vmPageDefault).state = VM_PAGE_STATE_ALLOCATED ∧
        (nthD arena.page_array p vmPageDefault).ref_count = 1) →
      (pages.filterMap id).Nodup →
      (destroy_pages pages arena).free_count = arena.free_count + (pages.filterMap id).length := by
  intro pages
  induction pages with
  | nil => intro arena _ _; rfl
  | cons o rest ih =>
    intro arena hall hnd
    cases o with
    | none =>
      have hr := ih arena (by simpa [filterMap_id_cons_none] using hall)
        (by simpa [filterMap_id_cons_none] using hnd)
      simpa [destroy_pages, filterMap_id_cons_none] using hr
    | some p =>
      have hp := hall p (by rw [filterMap_id_cons_some]; exact List.mem_cons_self p _)
      have hpnot : p ∉ rest.filterMap id := by
        have hx := List.nodup_cons.mp (by
          rw [filterMap_id_cons_some] at hnd
          exact hnd)
        exact hx.1
      have hfree : (pmm_arena_free_page arena p).2 =
          { arena with
            page_array := arena.page_array.set p
              { (nthD arena.page_array p vmPageDefault) with
                  state := VM_PAGE_STATE_FREE,
                  ref_count := (nthD arena.page_array p vmPageDefault).ref_count - 1 }
            free_list := p :: arena.free_list
            free_count := arena.free_count + 1 } := by
        unfold pmm_arena_free_page
        rw [if_neg (not_not_intro hp.1), if_neg (by rw [hp.2]; decide),
          if_neg (by rw [hp.2]; decide)]
      have hall2 : ∀ q ∈ rest.filterMap id,
          (nthD (pmm_arena_free_page arena p).2.page_array q vmPageDefault).state =
            VM_PAGE_STATE_ALLOCATED ∧
          (nthD (pmm_arena_free_page arena p).2.page_array q vmPageDefault).ref_count = 1 := by
        intro q hq
        have hqp : p ≠ q := fun he => hpnot (he ▸ hq)
        rw [hfree]
        dsimp only
        rw [nthD_set_ne _ p q _ _ hqp]
        exact hall q (by rw [filterMap_id_cons_some]; exact List.mem_cons_of_mem p hq)
      have hr := ih (pmm_arena_free_page arena p).2 hall2
        (by rw [filterMap_id_cons_some] at hnd; exact (List.nodup_cons.mp hnd).2)
      have hstep : destroy_pages (some p :: rest) arena =
          destroy_pages rest (pmm_arena_free_page arena p).2 := rfl
      rw [hstep, hr, hfree]
      rw [filterMap_id_cons_some]
      dsimp only
      simp [List.length_cons]
      omega

/-- C7: for a VMO initialized against an arena satisfying the arena
invariant, after any sequence of successful commit_page calls with no other
activity on the arena, vmo_bootstrap_destroy returns every committed page
and restores the free_count of the arena to exactly its value before the first
commit. -/
theorem vmo_destroy_restores_free_count (arena0 : PmmArena) (size : Nat) (st : Int)
    (vmo0 vmo : Vmo) (arena : PmmArena)
    (ha : ArenaInv arena0)
    (hinit : vmo_bootstrap_init arena0 size = (st, some vmo0))
    (hreach : CommitReach arena0 vmo0 vmo arena) :
    (vmo_bootstrap_destroy vmo arena).2.free_count = arena0.free_count := by
  have hinv := commitReach_vmoInv arena0 vmo0 vmo arena hreach
    (vmoInv_base arena0 size st vmo0 ha hinit)
  obtain ⟨hainv, hpc, hcom, hnd, hacc⟩ := hinv
  have hd := destroy_pages_free_count vmo.pages arena
    (fun p hp => ⟨(hcom p hp).2.1, (hcom p hp).2.2⟩) hnd
  show (destroy_pages vmo.pages arena).free_count = arena0.free_count
  rw [hd]
  simp only [committedIdx] at hacc
  omega

-- the arena produced by pmm_arena_init 0 4096 and the states after
-- vmo_bootstrap_init and one commit_page
def c7Arena0 : PmmArena :=
  { base := 0, size := 4096
    page_array := [{ paddr := 0, state := 0, ref_count := 0 }]
    free_list := [0]
    free_count := 1 }
def c7Vmo0 : Vmo := { size := 4096, pages := [none], page_count := 1 }
def c7Vmo1 : Vmo := { size := 4096, pages := [some 0], page_count := 1 }
def c7Arena1 : PmmArena :=
  { base := 0, size := 4096
    page_array := [{ paddr := 0, state := 1, ref_count := 1 }]
    free_list := []
    free_count := 0 }

/-- C7 witness: a one-page VMO with one committed page; destroy brings the
arena free count back from 0 to its pre-commit value 1. -/
theorem vmo_destroy_restores_free_count_witness :
    (vmo_bootstrap_destroy c7Vmo1 c7Arena1).2.free_count = c7Arena0.free_count :=
  vmo_destroy_restores_free_count c7Arena0 4096 ZX_OK c7Vmo0 c7Vmo1 c7Arena1
    (by decide) (by decide)
    (CommitReach.step c7Vmo0 c7Arena0 0 c7Vmo1 c7Arena1 CommitReach.base (by decide))

-- ===== C10: channel_read with undersized caller buffers =====

/-- C10: whenever channel_read resolves its handle to an open endpoint with
a non-empty queue, it returns ZX_OK, removes (and destroys) the head packet,
and writes the packet sizes to the non-null actual out-parameters; each
caller buffer receives the copy only when it is large enough, and is left
untouched — no truncated copy — when it is smaller than the packet
data_size (respectively num_handles). -/
theorem channel_read_small_buffer (w : ChannelWorld) (handle obj : Nat)
    (ep : Endpoint) (packet : Packet) (rest : List Packet)
    (buf hbuf : List Nat) (a0 ah0 data_size num_handles : Nat)
    (hh : handle ≠ ZX_HANDLE_INVALID)
    (hget : handle_get w.table handle ZX_RIGHT_READ = (ZX_OK, some obj))
    (hep : nthD w.endpoints obj epDefault = ep)
    (hopen : ep.is_closed = false)
    (hq : ep.message_queue = packet :: rest) :
    channel_read w handle (some buf) data_size (some a0) (some hbuf) num_handles (some ah0) =
      { status := ZX_OK
        world := { w with endpoints := w.endpoints.set obj { ep with message_queue := rest } }
        dataBuf := some (if packet.data.length ≤ data_size
          then packet.data ++ buf.drop packet.data.length else buf)
        actualData := some packet.data.length
        handlesBuf := some (if packet.handles.length ≤ num_handles
          then packet.handles ++ hbuf.drop packet.handles.length else hbuf)
        actualHandles := some packet.handles.length } := by
  unfold channel_read message_queue_is_empty message_queue_dequeue
  simp only [if_neg hh, hget, hep, hopen, hq]
  simp [Option.map]

-- a world with one endpoint named by handle 1, holding one queued packet of
-- 3 data bytes and 1 handle
def c10World : ChannelWorld :=
  { table := (handle_alloc (handle_table_init 64) 0 11).2.1
    endpoints := [{ message_queue := [{ data := [1, 2, 3], handles := [7] }],
                    peer := none, is_closed := false, ref_count := 1 }] }

/-- C10 witness: reading with a 1-byte data buffer and a 0-slot handle
buffer still returns ZX_OK, dequeues the packet, reports sizes 3 and 1, and
leaves both caller buffers untouched. -/
theorem channel_read_small_buffer_witness :
    channel_read c10World 1 (some [9]) 1 (some 0) (some []) 0 (some 0) =
      { status := ZX_OK
        world := { table := c10World.table,
                   endpoints := [{ message_queue := [], peer := none,
                                   is_closed := false, ref_count := 1 }] }
        dataBuf := some [9]
        actualData := some 3
        handlesBuf := some []
        actualHandles := some 1 } :=
  (channel_read_small_buffer c10World 1 0
      { message_queue := [{ data := [1, 2, 3], handles := [7] }],
        peer := none, is_closed := false, ref_count := 1 }
      { data := [1, 2, 3], handles := [7] } [] [9] [] 0 0 1 0
      (by decide) (by decide) (by decide) (by decide) (by decide)).trans (by decide)
